import Mathlib

/-!
Shallow embedding of the checkpoint protocol and training loop of
train_wavernn.py (WaveRNN vocoder training script).

The file system is modelled as an association list from path strings to
file contents; a write conses a new binding, and lookup takes the first
binding, so a later write shadows an earlier one.  Model weights and
optimizer state are abstracted to small inductive values; the weights
artifact carries the step counter, matching the spec statement that the
step is serialized as part of the weights artifact.
-/

set_option autoImplicit false

namespace TrainWaveRNN

/-- Abstract in-memory state of the WaveRNN model: abstract parameter
contents plus the step counter owned by the model. -/
structure ModelState where
  params : Nat
  step : Nat
deriving DecidableEq, Repr

/-- Abstract optimizer state (momentum etc.), kept abstract. -/
abbrev OptimState := Nat

/-- Contents of a file on disk: either a serialized weights artifact
(which carries the step, per the spec data model) or a serialized
optimizer-state artifact. -/
inductive FileContent where
  | weightsFile (m : ModelState)
  | optimFile (o : OptimState)
deriving DecidableEq, Repr

/-- The file system: an association list of path and content; the first
binding for a path wins, so writing is consing. -/
abbrev FS := List (String × FileContent)

/-- Look up the content stored at a path. -/
def fsLookup (fs : FS) (p : String) : Option FileContent :=
  match fs with
  | [] => none
  | (q, c) :: rest => if q = p then some c else fsLookup rest p

/-- Existence check, embedding Path.exists from the script. -/
def fsExists (fs : FS) (p : String) : Bool :=
  (fsLookup fs p).isSome

/-- Write content to a path (overwrites by shadowing). -/
def fsWrite (fs : FS) (p : String) (c : FileContent) : FS :=
  (p, c) :: fs

/-- The path resolver collaborator: the two latest-artifact locations and
the named-checkpoint directory (utils.paths.Paths). -/
structure Paths where
  voc_latest_weights : String
  voc_latest_optim : String
  voc_checkpoints : String
deriving DecidableEq, Repr

/-- Path of the weights artifact of a named checkpoint,
embedding paths.voc_checkpoints/f-string name_weights.pyt. -/
def namedWeightsPath (paths : Paths) (name : String) : String :=
  paths.voc_checkpoints ++ "/" ++ name ++ "_weights.pyt"

/-- Path of the optimizer-state artifact of a named checkpoint. -/
def namedOptimPath (paths : Paths) (name : String) : String :=
  paths.voc_checkpoints ++ "/" ++ name ++ "_optim.pyt"

/-- The num_exist count of save_checkpoint and restore_checkpoint:
how many of the two artifacts of one identity exist on disk
(sum of p.exists() over the path dict, in dict order w then o). -/
def numExist (fs : FS) (pw po : String) : Nat :=
  (if fsExists fs pw then 1 else 0) + (if fsExists fs po then 1 else 0)

/-- The checkpoint errors of the script.  Both are raised as
FileNotFoundError in Python but with distinct messages; the scope string
records the interpolated s label (latest or named). -/
inductive CkptError where
  | corrupted (scope : String)
  | missing (scope : String)
deriving DecidableEq, Repr

/-- True exactly when the error is the corrupted-checkpoint error
(message: expected both or no files, got exactly one). -/
def isCorrupted : Option CkptError → Bool
  | some (.corrupted _) => true
  | _ => false

/-- True exactly when the error is the missing-checkpoint error
(message: the checkpoint could not be found). -/
def isMissing : Option CkptError → Bool
  | some (.missing _) => true
  | _ => false

/-- Observable file-system events, recorded in order: writing an artifact
(model.save or torch.save) and loading weights or optimizer state. -/
inductive Event where
  | write (p : String)
  | loadW (p : String)
  | loadO (p : String)
deriving DecidableEq, Repr

/-- Result of the inner helper of save_checkpoint on one identity. -/
structure HelperResult where
  fs : FS
  trace : List Event
  error : Option CkptError
deriving DecidableEq, Repr

/-- The helper local to save_checkpoint: counts the existing artifacts of
one identity; raises the corrupted-checkpoint error when the count is
neither 0 nor 2; otherwise writes the weights artifact and then the
optimizer-state artifact.  Parent-directory creation has no observable
effect in this model.  When it raises, nothing has been written. -/
def saveHelper (fs : FS) (model : ModelState) (optim : OptimState)
    (pw po : String) (s : String) : HelperResult :=
  let n := numExist fs pw po
  if n ≠ 0 ∧ n ≠ 2 then
    { fs := fs, trace := [], error := some (.corrupted s) }
  else
    { fs := fsWrite (fsWrite fs pw (.weightsFile model)) po (.optimFile optim)
      trace := [.write pw, .write po]
      error := none }

/-- Result of save_checkpoint or restore_checkpoint: the file system,
the ordered event trace, the error raised if any, and the in-memory
model and optimizer states after the call. -/
structure CkptResult where
  fs : FS
  trace : List Event
  error : Option CkptError
  modelAfter : ModelState
  optimAfter : OptimState
deriving DecidableEq, Repr

/-- Embedding of save_checkpoint: always runs the helper on the latest
identity first; then, when a (truthy, i.e. nonempty) name is given and
the latest helper did not raise, runs the helper on the named identity.
A raise in either helper propagates, keeping the writes made so far.
The function never assigns to the model or optimizer objects, so the
in-memory states pass through unchanged. -/
def save_checkpoint (paths : Paths) (fs : FS) (model : ModelState)
    (optim : OptimState) (name : Option String) : CkptResult :=
  let r1 := saveHelper fs model optim
    paths.voc_latest_weights paths.voc_latest_optim "latest"
  match r1.error with
  | some e => { fs := r1.fs, trace := r1.trace, error := some e
                modelAfter := model, optimAfter := optim }
  | none =>
    match name with
    | none => { fs := r1.fs, trace := r1.trace, error := none
                modelAfter := model, optimAfter := optim }
    | some nm =>
      if nm = "" then
        { fs := r1.fs, trace := r1.trace, error := none
          modelAfter := model, optimAfter := optim }
      else
        let r2 := saveHelper r1.fs model optim
          (namedWeightsPath paths nm) (namedOptimPath paths nm) "named"
        { fs := r2.fs, trace := r1.trace ++ r2.trace, error := r2.error
          modelAfter := model, optimAfter := optim }

/-- The weights path restore_checkpoint targets: the named path when a
truthy name is given, else the latest path. -/
def targetWeights (paths : Paths) (name : Option String) : String :=
  match name with
  | some nm => if nm = "" then paths.voc_latest_weights
               else namedWeightsPath paths nm
  | none => paths.voc_latest_weights

/-- The optimizer-state path restore_checkpoint targets. -/
def targetOptim (paths : Paths) (name : Option String) : String :=
  match name with
  | some nm => if nm = "" then paths.voc_latest_optim
               else namedOptimPath paths nm
  | none => paths.voc_latest_optim

/-- The s label restore_checkpoint interpolates into its messages. -/
def targetScope (name : Option String) : String :=
  match name with
  | some nm => if nm = "" then "latest" else "named"
  | none => "latest"

/-- Modelled from the spec: model.load and optimizer.load_state_dict
(models/fatchord_version.py and torch are outside this file) replace the
in-memory state wholesale with the deserialized artifact; the step
counter travels inside the weights artifact.  A file of the wrong kind
is left as a no-op here; the script would fail inside torch, and no
theorem below depends on that case. -/
def loadWeights (fs : FS) (p : String) (model : ModelState) : ModelState :=
  match fsLookup fs p with
  | some (.weightsFile m) => m
  | _ => model

/-- Modelled from the spec: optimizer-state deserialization,
counterpart of loadWeights. -/
def loadOptim (fs : FS) (p : String) (optim : OptimState) : OptimState :=
  match fsLookup fs p with
  | some (.optimFile o) => o
  | _ => optim

/-- Embedding of restore_checkpoint: resolves the identity from name,
counts the artifacts; on 2 loads weights then optimizer state; otherwise
when create_if_missing is true delegates to save_checkpoint with the
same name; otherwise raises the missing-checkpoint error. -/
def restore_checkpoint (paths : Paths) (fs : FS) (model : ModelState)
    (optim : OptimState) (name : Option String)
    (create_if_missing : Bool) : CkptResult :=
  let pw := targetWeights paths name
  let po := targetOptim paths name
  if numExist fs pw po = 2 then
    { fs := fs
      trace := [.loadW pw, .loadO po]
      error := none
      modelAfter := loadWeights fs pw model
      optimAfter := loadOptim fs po optim }
  else if create_if_missing then
    save_checkpoint paths fs model optim name
  else
    { fs := fs, trace := [], error := some (.missing (targetScope name))
      modelAfter := model, optimAfter := optim }

/-- Pairwise distinctness of the two latest-artifact paths; holds of the
real path resolver, assumed where a theorem needs it. -/
def latestDistinct (paths : Paths) : Prop :=
  paths.voc_latest_weights ≠ paths.voc_latest_optim

instance (paths : Paths) : Decidable (latestDistinct paths) := by
  unfold latestDistinct; infer_instance

/-- The named-checkpoint paths of nm are distinct from both latest paths
and from each other; holds of the real path resolver for the step-named
checkpoints the loop produces, assumed where a theorem needs it. -/
def namedSeparate (paths : Paths) (nm : String) : Prop :=
  namedWeightsPath paths nm ≠ paths.voc_latest_weights ∧
  namedWeightsPath paths nm ≠ paths.voc_latest_optim ∧
  namedOptimPath paths nm ≠ paths.voc_latest_weights ∧
  namedOptimPath paths nm ≠ paths.voc_latest_optim ∧
  namedWeightsPath paths nm ≠ namedOptimPath paths nm

instance (paths : Paths) (nm : String) : Decidable (namedSeparate paths nm) := by
  unfold namedSeparate; infer_instance

/-- The two output-distribution modes of the model (model.mode). -/
inductive Mode where
  | RAW
  | MOL
deriving DecidableEq, Repr

/-- A tensor abstracted to its shape and whether it is floating point;
that is all the reshaping code of the loop observes or changes. -/
structure Tensor where
  shape : List Nat
  isFloat : Bool
deriving DecidableEq, Repr

/-- tensor.transpose(1, 2): swap dimensions 1 and 2. -/
def transpose12 (t : Tensor) : Tensor :=
  { t with shape :=
      match t.shape with
      | a :: b :: c :: rest => a :: c :: b :: rest
      | s => s }

/-- tensor.unsqueeze(-1): append a trailing singleton dimension. -/
def unsqueezeLast (t : Tensor) : Tensor :=
  { t with shape := t.shape ++ [1] }

/-- tensor.float(): cast to floating point, shape unchanged. -/
def toFloat (t : Tensor) : Tensor :=
  { t with isFloat := true }

/-- The reshaping the loop applies to prediction and target before the
loss call: in RAW mode the prediction is transposed on dims 1 and 2 and
gets a trailing singleton; in MOL mode the target is cast to float; in
both modes the target then gets a trailing singleton. -/
def lossInputs (mode : Mode) (y_hat y : Tensor) : Tensor × Tensor :=
  let y_hat :=
    match mode with
    | .RAW => unsqueezeLast (transpose12 y_hat)
    | .MOL => y_hat
  let y :=
    match mode with
    | .RAW => y
    | .MOL => toFloat y
  (y_hat, unsqueezeLast y)

/-- Outcome of one inner-loop iteration of voc_train_loop. -/
structure IterResult where
  lossArgs : Tensor × Tensor
  logs : List String
  optimizerStepped : Bool
  stepAfter : Nat
deriving DecidableEq, Repr

/-- One iteration of the inner loop of voc_train_loop over a batch:
forward pass, loss-input reshaping, backward, optional gradient clip
with a printed warning when the computed norm is NaN, and the optimizer
update.  No path in this region raises.  clipConfigured embeds
hp.voc_clip_grad_norm being non-None and gradNormIsNaN the outcome of
np.isnan on the clipped norm.  The step increment is modelled from the
spec: the model (models/fatchord_version.py, outside this file)
increments its step counter exactly once per completed optimization
step. -/
def voc_train_iteration (mode : Mode) (clipConfigured gradNormIsNaN : Bool)
    (stepBefore : Nat) (y_hat y : Tensor) : IterResult :=
  let stepAfter := stepBefore + 1
  let args := lossInputs mode y_hat y
  let logs := if clipConfigured && gradNormIsNaN
    then ["grad_norm was NaN!"] else []
  { lossArgs := args, logs := logs, optimizerStepped := true
    stepAfter := stepAfter }

/-- The epoch count computed at the top of voc_train_loop:
(total_steps - model.get_step()) // total_iters + 1, with Python floor
division embedded as Int.fdiv. -/
def epochsOf (total_steps step total_iters : Int) : Int :=
  Int.fdiv (total_steps - step) total_iters + 1

/-- Written from the words of the spec only, for comparison with
epochsOf: the ceiling of (total_steps - current_step) divided by
iterations_per_epoch.  For a positive divisor, (a + b - 1) / b with
Euclidean division is that ceiling. -/
def specCeilDiv (a b : Int) : Int :=
  (a + b - 1) / b

/-- The resolved compute device. -/
inductive Device where
  | cuda
  | cpu
deriving DecidableEq, Repr

/-- The device-resolution and batch-size validation block at the top of
main: when not forced to CPU and an accelerator is available, the device
is cuda and batch_size must be divisible by the visible device count,
else a ValueError is raised; otherwise the device is cpu. -/
def deviceSetup (force_cpu cuda_available : Bool)
    (batch_size device_count : Nat) : Except String Device :=
  if !force_cpu && cuda_available then
    if batch_size % device_count ≠ 0 then
      .error "`batch_size` must be evenly divisible by n_gpus!"
    else
      .ok .cuda
  else
    .ok .cpu

/-- Skeleton of main as far as the claims observe it: the device block
runs first, and only when it succeeds does control reach model
construction, checkpoint restore and the training loop; the returned
list stands for the indices of the training iterations that execute.
An error in the device block therefore precedes every iteration. -/
def mainFlow (force_cpu cuda_available : Bool)
    (batch_size device_count trainIters : Nat) :
    Except String (Device × List Nat) :=
  match deviceSetup force_cpu cuda_available batch_size device_count with
  | .error e => .error e
  | .ok d => .ok (d, List.range trainIters)

/-- Concrete path resolver used by witnesses. -/
def paths0 : Paths :=
  { voc_latest_weights := "ckpt/latest_weights.pyt"
    voc_latest_optim := "ckpt/latest_optim.pyt"
    voc_checkpoints := "ckpt" }

/-- Concrete model state used by witnesses. -/
def m0 : ModelState := { params := 7, step := 3 }

/-- Concrete optimizer state used by witnesses. -/
def o0 : OptimState := 5

/-- A file system where only the latest weights artifact exists:
the corrupted one-of-two state. -/
def fsOneLatest : FS :=
  [("ckpt/latest_weights.pyt", .weightsFile { params := 1, step := 9 })]

/-- A file system where both latest artifacts exist. -/
def fsBothLatest : FS :=
  [("ckpt/latest_weights.pyt", .weightsFile { params := 1, step := 9 }),
   ("ckpt/latest_optim.pyt", .optimFile 4)]

/-- A file system where both latest artifacts exist and exactly one of
the two artifacts of the named checkpoint wave_step5K exists. -/
def fsNamedCorrupt : FS :=
  [("ckpt/latest_weights.pyt", .weightsFile { params := 1, step := 9 }),
   ("ckpt/latest_optim.pyt", .optimFile 4),
   ("ckpt/wave_step5K_weights.pyt", .weightsFile { params := 2, step := 5000 })]

/-! Helper lemmas about the file-system model. -/

theorem fsLookup_write (fs : FS) (p q : String) (c : FileContent) :
    fsLookup (fsWrite fs p c) q = if p = q then some c else fsLookup fs q := rfl

theorem fsLookup_write_self (fs : FS) (p : String) (c : FileContent) :
    fsLookup (fsWrite fs p c) p = some c := by
  rw [fsLookup_write, if_pos rfl]

theorem fsLookup_write_ne (fs : FS) (p q : String) (c : FileContent)
    (h : p ≠ q) : fsLookup (fsWrite fs p c) q = fsLookup fs q := by
  rw [fsLookup_write, if_neg h]

theorem fsExists_write_self (fs : FS) (p : String) (c : FileContent) :
    fsExists (fsWrite fs p c) p = true := by
  simp [fsExists, fsLookup_write_self]

theorem fsExists_write_ne (fs : FS) (p q : String) (c : FileContent)
    (h : p ≠ q) : fsExists (fsWrite fs p c) q = fsExists fs q := by
  simp [fsExists, fsLookup_write_ne fs p q c h]

theorem fsExists_write_mono (fs : FS) (p q : String) (c : FileContent)
    (h : fsExists fs q = true) : fsExists (fsWrite fs p c) q = true := by
  by_cases hpq : p = q
  · subst hpq; exact fsExists_write_self fs p c
  · rw [fsExists_write_ne fs p q c hpq]; exact h

theorem numExist_congr (fs1 fs2 : FS) (pw po : String)
    (hw : fsLookup fs1 pw = fsLookup fs2 pw)
    (ho : fsLookup fs1 po = fsLookup fs2 po) :
    numExist fs1 pw po = numExist fs2 pw po := by
  simp [numExist, fsExists, hw, ho]

theorem numExist_le_two (fs : FS) (pw po : String) :
    numExist fs pw po = 0 ∨ numExist fs pw po = 1 ∨ numExist fs pw po = 2 := by
  unfold numExist
  split <;> split <;> simp

/-- After the two latest writes of save_checkpoint, both latest
artifacts exist. -/
theorem latest_exist_after_writes (fs : FS) (m : ModelState) (o : OptimState)
    (lw lo : String) :
    fsExists (fsWrite (fsWrite fs lw (.weightsFile m)) lo (.optimFile o)) lw = true ∧
    fsExists (fsWrite (fsWrite fs lw (.weightsFile m)) lo (.optimFile o)) lo = true :=
  ⟨fsExists_write_mono _ _ _ _ (fsExists_write_self fs lw _),
   fsExists_write_self _ lo _⟩

/-- The latest writes of save_checkpoint do not touch the named paths of
nm when the paths are separate. -/
theorem named_lookup_after_latest_writes (paths : Paths) (fs : FS)
    (m : ModelState) (o : OptimState) (nm : String)
    (hsep : namedSeparate paths nm) :
    fsLookup (fsWrite (fsWrite fs paths.voc_latest_weights (.weightsFile m))
        paths.voc_latest_optim (.optimFile o)) (namedWeightsPath paths nm) =
      fsLookup fs (namedWeightsPath paths nm) ∧
    fsLookup (fsWrite (fsWrite fs paths.voc_latest_weights (.weightsFile m))
        paths.voc_latest_optim (.optimFile o)) (namedOptimPath paths nm) =
      fsLookup fs (namedOptimPath paths nm) := by
  obtain ⟨h1, h2, h3, h4, _⟩ := hsep
  constructor
  · rw [fsLookup_write_ne _ _ _ _ (Ne.symm h2),
        fsLookup_write_ne _ _ _ _ (Ne.symm h1)]
  · rw [fsLookup_write_ne _ _ _ _ (Ne.symm h4),
        fsLookup_write_ne _ _ _ _ (Ne.symm h3)]

/-! Claim theorems. -/

/-- C5: a batch whose gradient-clipping norm computes to NaN logs the
warning, does not raise, still applies the optimizer update, and still
advances the step counter by exactly one. -/
theorem nan_grad_norm_step_proceeds (mode : Mode) (stepBefore : Nat)
    (y_hat y : Tensor) :
    (voc_train_iteration mode true true stepBefore y_hat y).logs =
      ["grad_norm was NaN!"] ∧
    (voc_train_iteration mode true true stepBefore y_hat y).optimizerStepped = true ∧
    (voc_train_iteration mode true true stepBefore y_hat y).stepAfter =
      stepBefore + 1 := by
  refine ⟨rfl, rfl, rfl⟩

/-- C6: with an accelerator selected, a batch size not divisible by the
device count fails the startup validation with the sizing error before
any training iteration; batch size 32 with 2 devices passes and the
training iterations run. -/
theorem batch_size_divisibility_validated (bs dc iters : Nat)
    (h : bs % dc ≠ 0) :
    mainFlow false true bs dc iters =
      .error "`batch_size` must be evenly divisible by n_gpus!" ∧
    deviceSetup false true 32 2 = .ok .cuda ∧
    mainFlow false true 32 2 iters = .ok (.cuda, List.range iters) := by
  refine ⟨?_, rfl, rfl⟩
  simp [mainFlow, deviceSetup, h]

/-- Witness for C6 at batch size 33 and device count 2. -/
theorem batch_size_divisibility_validated_witness :
    mainFlow false true 33 2 4 =
      .error "`batch_size` must be evenly divisible by n_gpus!" ∧
    deviceSetup false true 32 2 = .ok .cuda ∧
    mainFlow false true 32 2 4 = .ok (.cuda, List.range 4) :=
  batch_size_divisibility_validated 33 2 4 (by decide)

/-- C7: in RAW mode the loss is called with the prediction transposed
and reshaped from B T C to B C T 1 and the integer target reshaped from
B T to B T 1; in MOL mode the prediction is unchanged and the target is
cast to float and reshaped to B T 1. -/
theorem loss_input_shapes (B T C : Nat) (y_hat y : Tensor)
    (hp : y_hat.shape = [B, T, C]) (ht : y.shape = [B, T])
    (hf : y.isFloat = false) :
    lossInputs .RAW y_hat y =
      ({ shape := [B, C, T, 1], isFloat := y_hat.isFloat },
       { shape := [B, T, 1], isFloat := false }) ∧
    (lossInputs .MOL y_hat y).1 = y_hat ∧
    (lossInputs .MOL y_hat y).2 = { shape := [B, T, 1], isFloat := true } := by
  obtain ⟨shp, fp⟩ := y_hat
  obtain ⟨sht, ft⟩ := y
  simp only [Tensor.mk.injEq] at *
  subst hp ht hf
  refine ⟨?_, ?_, ?_⟩ <;>
    simp [lossInputs, transpose12, unsqueezeLast, toFloat]

/-- Witness for C7 with concrete shapes B 2, T 3, C 4. -/
theorem loss_input_shapes_witness :
    lossInputs .RAW { shape := [2, 3, 4], isFloat := true }
        { shape := [2, 3], isFloat := false } =
      ({ shape := [2, 4, 3, 1], isFloat := true },
       { shape := [2, 3, 1], isFloat := false }) ∧
    (lossInputs .MOL { shape := [2, 3, 4], isFloat := true }
        { shape := [2, 3], isFloat := false }).1 =
      { shape := [2, 3, 4], isFloat := true } ∧
    (lossInputs .MOL { shape := [2, 3, 4], isFloat := true }
        { shape := [2, 3], isFloat := false }).2 =
      { shape := [2, 3, 1], isFloat := true } :=
  loss_input_shapes 2 3 4 _ _ rfl rfl rfl

/-- C4 counterexample: with total steps 1000, current step 0 and 500
iterations per epoch, the loop computes 3 epochs while the ceiling of
the quotient is 2, so the epoch count is not that ceiling. -/
theorem epochs_count_counterexample :
    epochsOf 1000 0 500 ≠ specCeilDiv (1000 - 0) 500 := by decide

/-- Arithmetic core of the amended C4: floor division plus one against
ceiling division, for a positive divisor. -/
theorem ediv_succ_eq_ceil_aux (d n : Int) (hn : 0 < n) :
    d / n + 1 = (d + n - 1) / n + (if d % n = 0 then 1 else 0) := by
  by_cases h : d % n = 0
  · rw [if_pos h]
    obtain ⟨k, hk⟩ := Int.dvd_of_emod_eq_zero h
    subst hk
    rw [Int.mul_ediv_cancel_left k (ne_of_gt hn)]
    have harr : n * k + n - 1 = (n - 1) + n * k := by ring
    rw [harr, Int.add_mul_ediv_left _ _ (ne_of_gt hn)]
    have hz : (n - 1) / n = 0 := Int.ediv_eq_zero_of_lt (by omega) (by omega)
    rw [hz]
    omega
  · rw [if_neg h]
    have h0 : 0 ≤ d % n := Int.emod_nonneg d (ne_of_gt hn)
    have h2 : d % n < n := Int.emod_lt_of_pos d hn
    have e : n * (d / n) + d % n = d := Int.ediv_add_emod d n
    have key : d + n - 1 = (d % n - 1) + n * (d / n + 1) := by
      have expand : n * (d / n + 1) = n * (d / n) + n := by ring
      omega
    rw [key, Int.add_mul_ediv_left _ _ (ne_of_gt hn)]
    have hz : (d % n - 1) / n = 0 := Int.ediv_eq_zero_of_lt (by omega) (by omega)
    rw [hz]
    omega

/-- C4 amended: for positive iterations per epoch the epoch count is
floor of the quotient plus one, which is the ceiling of the quotient
except when the remaining-step difference is an exact multiple, where it
is the ceiling plus one. -/
theorem epochsOf_eq_ceil_plus_boundary (t s n : Int) (hn : 0 < n) :
    epochsOf t s n =
      specCeilDiv (t - s) n + (if (t - s) % n = 0 then 1 else 0) := by
  unfold epochsOf specCeilDiv
  rw [Int.fdiv_eq_ediv _ (le_of_lt hn)]
  exact ediv_succ_eq_ceil_aux (t - s) n hn

/-- Witness for the amended C4 at total 1000, step 0, 300 iterations. -/
theorem epochsOf_eq_ceil_plus_boundary_witness :
    epochsOf 1000 0 300 =
      specCeilDiv (1000 - 0) 300 + (if ((1000 : Int) - 0) % 300 = 0 then 1 else 0) :=
  epochsOf_eq_ceil_plus_boundary 1000 0 300 (by decide)

/-! Characterizations of saveHelper and save_checkpoint. -/

theorem saveHelper_corrupt (fs : FS) (m : ModelState) (o : OptimState)
    (pw po s : String) (h : numExist fs pw po = 1) :
    saveHelper fs m o pw po s =
      { fs := fs, trace := [], error := some (.corrupted s) } := by
  simp [saveHelper, h]

theorem saveHelper_ok (fs : FS) (m : ModelState) (o : OptimState)
    (pw po s : String) (h : numExist fs pw po ≠ 1) :
    saveHelper fs m o pw po s =
      { fs := fsWrite (fsWrite fs pw (.weightsFile m)) po (.optimFile o)
        trace := [.write pw, .write po], error := none } := by
  have h3 := numExist_le_two fs pw po
  have hc : ¬(numExist fs pw po ≠ 0 ∧ numExist fs pw po ≠ 2) := by omega
  simp only [saveHelper, if_neg hc]

theorem save_checkpoint_latest_corrupt (paths : Paths) (fs : FS)
    (m : ModelState) (o : OptimState) (name : Option String)
    (h : numExist fs paths.voc_latest_weights paths.voc_latest_optim = 1) :
    save_checkpoint paths fs m o name =
      { fs := fs, trace := [], error := some (.corrupted "latest")
        modelAfter := m, optimAfter := o } := by
  simp only [save_checkpoint, saveHelper_corrupt fs m o _ _ _ h]

theorem save_checkpoint_none_ok (paths : Paths) (fs : FS)
    (m : ModelState) (o : OptimState)
    (h : numExist fs paths.voc_latest_weights paths.voc_latest_optim ≠ 1) :
    save_checkpoint paths fs m o none =
      { fs := fsWrite (fsWrite fs paths.voc_latest_weights (.weightsFile m))
            paths.voc_latest_optim (.optimFile o)
        trace := [.write paths.voc_latest_weights, .write paths.voc_latest_optim]
        error := none, modelAfter := m, optimAfter := o } := by
  simp only [save_checkpoint, saveHelper_ok fs m o _ _ _ h]

theorem save_checkpoint_named_eq (paths : Paths) (fs : FS)
    (m : ModelState) (o : OptimState) (nm : String) (hnm : nm ≠ "")
    (hL : numExist fs paths.voc_latest_weights paths.voc_latest_optim ≠ 1) :
    save_checkpoint paths fs m o (some nm) =
      { fs := (saveHelper
            (fsWrite (fsWrite fs paths.voc_latest_weights (.weightsFile m))
              paths.voc_latest_optim (.optimFile o)) m o
            (namedWeightsPath paths nm) (namedOptimPath paths nm) "named").fs
        trace := [.write paths.voc_latest_weights, .write paths.voc_latest_optim] ++
          (saveHelper
            (fsWrite (fsWrite fs paths.voc_latest_weights (.weightsFile m))
              paths.voc_latest_optim (.optimFile o)) m o
            (namedWeightsPath paths nm) (namedOptimPath paths nm) "named").trace
        error := (saveHelper
            (fsWrite (fsWrite fs paths.voc_latest_weights (.weightsFile m))
              paths.voc_latest_optim (.optimFile o)) m o
            (namedWeightsPath paths nm) (namedOptimPath paths nm) "named").error
        modelAfter := m, optimAfter := o } := by
  simp only [save_checkpoint, saveHelper_ok fs m o _ _ _ hL, if_neg hnm]

/-- Shared analysis: save_checkpoint on an identity with exactly one
existing artifact raises the corrupted-checkpoint error and leaves the
artifacts of that identity untouched. -/
theorem save_target_corrupt_aux (paths : Paths) (fs : FS) (m : ModelState)
    (o : OptimState) (name : Option String)
    (h1 : numExist fs (targetWeights paths name) (targetOptim paths name) = 1)
    (hsep : ∀ nm, name = some nm → nm ≠ "" → namedSeparate paths nm) :
    isCorrupted (save_checkpoint paths fs m o name).error = true ∧
    fsLookup (save_checkpoint paths fs m o name).fs (targetWeights paths name) =
      fsLookup fs (targetWeights paths name) ∧
    fsLookup (save_checkpoint paths fs m o name).fs (targetOptim paths name) =
      fsLookup fs (targetOptim paths name) := by
  rcases name with _ | nm
  · rw [save_checkpoint_latest_corrupt paths fs m o none h1]
    exact ⟨rfl, rfl, rfl⟩
  · by_cases he : nm = ""
    · subst he
      have hL : numExist fs paths.voc_latest_weights paths.voc_latest_optim = 1 := by
        simpa [targetWeights, targetOptim] using h1
      rw [save_checkpoint_latest_corrupt paths fs m o _ hL]
      exact ⟨rfl, rfl, rfl⟩
    · have hsep' := hsep nm rfl he
      have htW : targetWeights paths (some nm) = namedWeightsPath paths nm := by
        simp [targetWeights, he]
      have htO : targetOptim paths (some nm) = namedOptimPath paths nm := by
        simp [targetOptim, he]
      rw [htW, htO] at h1 ⊢
      by_cases hL : numExist fs paths.voc_latest_weights paths.voc_latest_optim = 1
      · rw [save_checkpoint_latest_corrupt paths fs m o _ hL]
        exact ⟨rfl, rfl, rfl⟩
      · rw [save_checkpoint_named_eq paths fs m o nm he hL]
        have hpres := named_lookup_after_latest_writes paths fs m o nm hsep'
        have hn1 : numExist
            (fsWrite (fsWrite fs paths.voc_latest_weights (.weightsFile m))
              paths.voc_latest_optim (.optimFile o))
            (namedWeightsPath paths nm) (namedOptimPath paths nm) = 1 := by
          rw [numExist_congr _ fs _ _ hpres.1 hpres.2]; exact h1
        rw [saveHelper_corrupt _ m o _ _ _ hn1]
        exact ⟨rfl, hpres.1, hpres.2⟩

/-- C1: restore_checkpoint is a three-way split on the artifact count of
the identity: both present loads weights then optimizer state in that
order; neither present with create_if_missing true delegates to
save_checkpoint; neither present with create_if_missing false raises
the missing-checkpoint error. -/
theorem restore_checkpoint_three_way_split (paths : Paths) (fs : FS)
    (m : ModelState) (o : OptimState) (name : Option String) (cim : Bool) :
    (numExist fs (targetWeights paths name) (targetOptim paths name) = 2 →
      restore_checkpoint paths fs m o name cim =
        { fs := fs
          trace := [.loadW (targetWeights paths name),
                    .loadO (targetOptim paths name)]
          error := none
          modelAfter := loadWeights fs (targetWeights paths name) m
          optimAfter := loadOptim fs (targetOptim paths name) o }) ∧
    (numExist fs (targetWeights paths name) (targetOptim paths name) = 0 →
      cim = true →
      restore_checkpoint paths fs m o name cim =
        save_checkpoint paths fs m o name) ∧
    (numExist fs (targetWeights paths name) (targetOptim paths name) = 0 →
      cim = false →
      restore_checkpoint paths fs m o name cim =
        { fs := fs, trace := [], error := some (.missing (targetScope name))
          modelAfter := m, optimAfter := o }) := by
  refine ⟨?_, ?_, ?_⟩
  · intro h2
    simp only [restore_checkpoint, if_pos h2]
  · intro h0 hc
    subst hc
    have hne2 :
        ¬ numExist fs (targetWeights paths name) (targetOptim paths name) = 2 := by
      omega
    simp only [restore_checkpoint, if_neg hne2]
    simp
  · intro h0 hc
    subst hc
    have hne2 :
        ¬ numExist fs (targetWeights paths name) (targetOptim paths name) = 2 := by
      omega
    simp only [restore_checkpoint, if_neg hne2]
    simp

/-- Witness for C1 on a file system where both latest artifacts exist. -/
theorem restore_checkpoint_three_way_split_witness :
    restore_checkpoint paths0 fsBothLatest m0 o0 none false =
      { fs := fsBothLatest
        trace := [.loadW (targetWeights paths0 none),
                  .loadO (targetOptim paths0 none)]
        error := none
        modelAfter := loadWeights fsBothLatest (targetWeights paths0 none) m0
        optimAfter := loadOptim fsBothLatest (targetOptim paths0 none) o0 } :=
  (restore_checkpoint_three_way_split paths0 fsBothLatest m0 o0 none false).1
    (by decide)

/-- C2 counterexample: with exactly one latest artifact present and
create_if_missing false, restore_checkpoint raises the
missing-checkpoint error, not the corrupted-checkpoint error. -/
theorem restore_single_cim_false_counterexample :
    isMissing (restore_checkpoint paths0 fsOneLatest m0 o0 none false).error
      = true ∧
    isCorrupted (restore_checkpoint paths0 fsOneLatest m0 o0 none false).error
      = false := by decide

/-- C2 amended: with exactly one artifact of the identity present,
restore_checkpoint always fails, with the corrupted-checkpoint error
when create_if_missing is true and with the missing-checkpoint error
when it is false, and the inconsistent pair is never repaired. -/
theorem restore_single_artifact_errors (paths : Paths) (fs : FS)
    (m : ModelState) (o : OptimState) (name : Option String) (cim : Bool)
    (h1 : numExist fs (targetWeights paths name) (targetOptim paths name) = 1)
    (hsep : ∀ nm, name = some nm → nm ≠ "" → namedSeparate paths nm) :
    (cim = true →
      isCorrupted (restore_checkpoint paths fs m o name cim).error = true) ∧
    (cim = false →
      isMissing (restore_checkpoint paths fs m o name cim).error = true) ∧
    numExist (restore_checkpoint paths fs m o name cim).fs
      (targetWeights paths name) (targetOptim paths name) = 1 := by
  have hne2 :
      ¬ numExist fs (targetWeights paths name) (targetOptim paths name) = 2 := by
    omega
  cases cim
  · have hr : restore_checkpoint paths fs m o name false =
        { fs := fs, trace := [], error := some (.missing (targetScope name))
          modelAfter := m, optimAfter := o } := by
      simp only [restore_checkpoint, if_neg hne2]
      simp
    exact ⟨fun h => Bool.noConfusion h, fun _ => by rw [hr]; rfl,
      by rw [hr]; exact h1⟩
  · have hr : restore_checkpoint paths fs m o name true =
        save_checkpoint paths fs m o name := by
      simp only [restore_checkpoint, if_neg hne2]
      simp
    obtain ⟨hc, hw, ho2⟩ := save_target_corrupt_aux paths fs m o name h1 hsep
    refine ⟨fun _ => by rw [hr]; exact hc, fun h => Bool.noConfusion h, ?_⟩
    rw [hr, numExist_congr _ fs _ _ hw ho2]
    exact h1

/-- Witness for the amended C2 with one latest artifact and
create_if_missing true. -/
theorem restore_single_artifact_errors_witness :
    ((true : Bool) = true →
      isCorrupted (restore_checkpoint paths0 fsOneLatest m0 o0 none true).error
        = true) ∧
    ((true : Bool) = false →
      isMissing (restore_checkpoint paths0 fsOneLatest m0 o0 none true).error
        = true) ∧
    numExist (restore_checkpoint paths0 fsOneLatest m0 o0 none true).fs
      (targetWeights paths0 none) (targetOptim paths0 none) = 1 :=
  restore_single_artifact_errors paths0 fsOneLatest m0 o0 none true
    (by decide) (fun _ h => Option.noConfusion h)

/-- C3 counterexample: with exactly one latest artifact present,
save_checkpoint raises the corrupted-checkpoint error and does not
write the missing optimizer-state artifact. -/
theorem save_single_artifact_counterexample :
    isCorrupted (save_checkpoint paths0 fsOneLatest m0 o0 none).error = true ∧
    fsExists (save_checkpoint paths0 fsOneLatest m0 o0 none).fs
      "ckpt/latest_optim.pyt" = false := by decide

/-- C3 amended: when exactly one of the two artifacts of the saved
identity exists, save_checkpoint raises the corrupted-checkpoint error
and leaves the artifacts of that identity unchanged, rather than
proceeding to write both. -/
theorem save_single_artifact_raises (paths : Paths) (fs : FS)
    (m : ModelState) (o : OptimState) (name : Option String)
    (h1 : numExist fs (targetWeights paths name) (targetOptim paths name) = 1)
    (hsep : ∀ nm, name = some nm → nm ≠ "" → namedSeparate paths nm) :
    isCorrupted (save_checkpoint paths fs m o name).error = true ∧
    fsLookup (save_checkpoint paths fs m o name).fs (targetWeights paths name) =
      fsLookup fs (targetWeights paths name) ∧
    fsLookup (save_checkpoint paths fs m o name).fs (targetOptim paths name) =
      fsLookup fs (targetOptim paths name) :=
  save_target_corrupt_aux paths fs m o name h1 hsep

/-- Witness for the amended C3 with one latest artifact. -/
theorem save_single_artifact_raises_witness :
    isCorrupted (save_checkpoint paths0 fsOneLatest m0 o0 none).error = true ∧
    fsLookup (save_checkpoint paths0 fsOneLatest m0 o0 none).fs
      (targetWeights paths0 none) =
      fsLookup fsOneLatest (targetWeights paths0 none) ∧
    fsLookup (save_checkpoint paths0 fsOneLatest m0 o0 none).fs
      (targetOptim paths0 none) =
      fsLookup fsOneLatest (targetOptim paths0 none) :=
  save_single_artifact_raises paths0 fsOneLatest m0 o0 none
    (by decide) (fun _ h => Option.noConfusion h)

/-- Field view of save_checkpoint with no name on a consistent latest
pair. -/
theorem save_none_fields (paths : Paths) (fs : FS) (m : ModelState)
    (o : OptimState)
    (h : numExist fs paths.voc_latest_weights paths.voc_latest_optim ≠ 1) :
    (save_checkpoint paths fs m o none).error = none ∧
    (save_checkpoint paths fs m o none).fs =
      fsWrite (fsWrite fs paths.voc_latest_weights (.weightsFile m))
        paths.voc_latest_optim (.optimFile o) ∧
    (save_checkpoint paths fs m o none).modelAfter = m := by
  rw [save_checkpoint_none_ok paths fs m o h]
  exact ⟨rfl, rfl, rfl⟩

/-- save_checkpoint with an empty (falsy) name behaves as with no
name. -/
theorem save_checkpoint_emptyname_ok (paths : Paths) (fs : FS)
    (m : ModelState) (o : OptimState)
    (h : numExist fs paths.voc_latest_weights paths.voc_latest_optim ≠ 1) :
    save_checkpoint paths fs m o (some "") =
      { fs := fsWrite (fsWrite fs paths.voc_latest_weights (.weightsFile m))
            paths.voc_latest_optim (.optimFile o)
        trace := [.write paths.voc_latest_weights, .write paths.voc_latest_optim]
        error := none, modelAfter := m, optimAfter := o } := by
  simp only [save_checkpoint, saveHelper_ok fs m o _ _ _ h]
  simp

/-- C8 counterexample: in the corrupted one-of-two latest state even the
first of the two consecutive save_checkpoint calls fails. -/
theorem save_latest_twice_counterexample :
    (save_checkpoint paths0 fsOneLatest m0 o0 none).error ≠ none := by decide

/-- C8 amended: when the latest pair is consistent (not exactly one
artifact), saving the latest checkpoint twice in a row succeeds both
times, leaves both latest artifacts present, and leaves the in-memory
model (hence its step counter) unchanged by both calls. -/
theorem save_latest_twice_idempotent (paths : Paths) (fs : FS)
    (m : ModelState) (o : OptimState)
    (h : numExist fs paths.voc_latest_weights paths.voc_latest_optim ≠ 1) :
    (save_checkpoint paths fs m o none).error = none ∧
    (save_checkpoint paths (save_checkpoint paths fs m o none).fs m o none).error
      = none ∧
    fsExists (save_checkpoint paths (save_checkpoint paths fs m o none).fs
      m o none).fs paths.voc_latest_weights = true ∧
    fsExists (save_checkpoint paths (save_checkpoint paths fs m o none).fs
      m o none).fs paths.voc_latest_optim = true ∧
    (save_checkpoint paths fs m o none).modelAfter = m ∧
    (save_checkpoint paths (save_checkpoint paths fs m o none).fs
      m o none).modelAfter = m := by
  obtain ⟨he1, hfs1, hm1⟩ := save_none_fields paths fs m o h
  have hex := latest_exist_after_writes fs m o
    paths.voc_latest_weights paths.voc_latest_optim
  have h2 : numExist
      (fsWrite (fsWrite fs paths.voc_latest_weights (.weightsFile m))
        paths.voc_latest_optim (.optimFile o))
      paths.voc_latest_weights paths.voc_latest_optim ≠ 1 := by
    simp [numExist, hex.1, hex.2]
  rw [hfs1]
  obtain ⟨he2, hfs2, hm2⟩ := save_none_fields paths _ m o h2
  rw [hfs2]
  refine ⟨he1, he2, ?_, ?_, hm1, hm2⟩
  · exact (latest_exist_after_writes _ m o _ _).1
  · exact (latest_exist_after_writes _ m o _ _).2

/-- Witness for the amended C8 on a consistent latest pair. -/
theorem save_latest_twice_idempotent_witness :
    (save_checkpoint paths0 fsBothLatest m0 o0 none).error = none ∧
    (save_checkpoint paths0 (save_checkpoint paths0 fsBothLatest m0 o0 none).fs
      m0 o0 none).error = none ∧
    fsExists (save_checkpoint paths0
      (save_checkpoint paths0 fsBothLatest m0 o0 none).fs m0 o0 none).fs
      paths0.voc_latest_weights = true ∧
    fsExists (save_checkpoint paths0
      (save_checkpoint paths0 fsBothLatest m0 o0 none).fs m0 o0 none).fs
      paths0.voc_latest_optim = true ∧
    (save_checkpoint paths0 fsBothLatest m0 o0 none).modelAfter = m0 ∧
    (save_checkpoint paths0 (save_checkpoint paths0 fsBothLatest m0 o0 none).fs
      m0 o0 none).modelAfter = m0 :=
  save_latest_twice_idempotent paths0 fsBothLatest m0 o0 (by decide)

/-- C9 counterexample: with a corrupted latest pair, a call to
save_checkpoint with a name raises and writes nothing at all, in
particular not the latest artifacts. -/
theorem save_not_always_writes_latest_counterexample :
    (save_checkpoint paths0 fsOneLatest m0 o0 (some "wave_step5K")).trace = [] ∧
    (save_checkpoint paths0 fsOneLatest m0 o0 (some "wave_step5K")).error
      ≠ none := by decide

/-- C9 amended: every save_checkpoint call on a consistent latest pair
writes the latest weights and optimizer-state artifacts, and writes
them before any named-checkpoint writes; consequently
restore_checkpoint on a missing named checkpoint with create_if_missing
true overwrites the latest checkpoint with the current in-memory
state. -/
theorem save_writes_latest_first (paths : Paths) (fs : FS) (m : ModelState)
    (o : OptimState) (name : Option String)
    (hL : numExist fs paths.voc_latest_weights paths.voc_latest_optim ≠ 1) :
    (∃ rest, (save_checkpoint paths fs m o name).trace =
      .write paths.voc_latest_weights :: .write paths.voc_latest_optim :: rest) ∧
    fsExists (save_checkpoint paths fs m o name).fs
      paths.voc_latest_weights = true ∧
    fsExists (save_checkpoint paths fs m o name).fs
      paths.voc_latest_optim = true ∧
    (∀ nm, name = some nm → nm ≠ "" → latestDistinct paths →
      namedSeparate paths nm →
      numExist fs (namedWeightsPath paths nm) (namedOptimPath paths nm) = 0 →
      restore_checkpoint paths fs m o (some nm) true =
        save_checkpoint paths fs m o (some nm) ∧
      fsLookup (restore_checkpoint paths fs m o (some nm) true).fs
        paths.voc_latest_weights = some (.weightsFile m) ∧
      fsLookup (restore_checkpoint paths fs m o (some nm) true).fs
        paths.voc_latest_optim = some (.optimFile o)) := by
  have hex := latest_exist_after_writes fs m o
    paths.voc_latest_weights paths.voc_latest_optim
  have hmain :
      (∃ rest, (save_checkpoint paths fs m o name).trace =
        .write paths.voc_latest_weights ::
          .write paths.voc_latest_optim :: rest) ∧
      fsExists (save_checkpoint paths fs m o name).fs
        paths.voc_latest_weights = true ∧
      fsExists (save_checkpoint paths fs m o name).fs
        paths.voc_latest_optim = true := by
    rcases name with _ | nm
    · rw [save_checkpoint_none_ok paths fs m o hL]
      exact ⟨⟨[], rfl⟩, hex.1, hex.2⟩
    · by_cases he : nm = ""
      · subst he
        rw [save_checkpoint_emptyname_ok paths fs m o hL]
        exact ⟨⟨[], rfl⟩, hex.1, hex.2⟩
      · rw [save_checkpoint_named_eq paths fs m o nm he hL]
        by_cases hN : numExist
            (fsWrite (fsWrite fs paths.voc_latest_weights (.weightsFile m))
              paths.voc_latest_optim (.optimFile o))
            (namedWeightsPath paths nm) (namedOptimPath paths nm) = 1
        · rw [saveHelper_corrupt _ m o _ _ _ hN]
          exact ⟨⟨[], by simp⟩, hex.1, hex.2⟩
        · rw [saveHelper_ok _ m o _ _ _ hN]
          refine ⟨⟨[.write (namedWeightsPath paths nm),
            .write (namedOptimPath paths nm)], by simp⟩, ?_, ?_⟩
          · exact fsExists_write_mono _ _ _ _
              (fsExists_write_mono _ _ _ _ hex.1)
          · exact fsExists_write_mono _ _ _ _
              (fsExists_write_mono _ _ _ _ hex.2)
  refine ⟨hmain.1, hmain.2.1, hmain.2.2, ?_⟩
  intro nm heq he hld hsep hN0
  have htW : targetWeights paths (some nm) = namedWeightsPath paths nm := by
    simp [targetWeights, he]
  have htO : targetOptim paths (some nm) = namedOptimPath paths nm := by
    simp [targetOptim, he]
  have hne2 : ¬ numExist fs (targetWeights paths (some nm))
      (targetOptim paths (some nm)) = 2 := by
    rw [htW, htO]; omega
  have hrestore : restore_checkpoint paths fs m o (some nm) true =
      save_checkpoint paths fs m o (some nm) := by
    simp only [restore_checkpoint, if_neg hne2]
    simp
  have hpres := named_lookup_after_latest_writes paths fs m o nm hsep
  have hn0 : numExist
      (fsWrite (fsWrite fs paths.voc_latest_weights (.weightsFile m))
        paths.voc_latest_optim (.optimFile o))
      (namedWeightsPath paths nm) (namedOptimPath paths nm) ≠ 1 := by
    rw [numExist_congr _ fs _ _ hpres.1 hpres.2]; omega
  refine ⟨hrestore, ?_, ?_⟩ <;>
    simp only [hrestore, save_checkpoint_named_eq paths fs m o nm he hL,
      saveHelper_ok _ m o _ _ _ hn0]
  · rw [fsLookup_write_ne _ _ _ _ hsep.2.2.1,
        fsLookup_write_ne _ _ _ _ hsep.1,
        fsLookup_write_ne _ _ _ _ (Ne.symm hld),
        fsLookup_write_self]
  · rw [fsLookup_write_ne _ _ _ _ hsep.2.2.2.1,
        fsLookup_write_ne _ _ _ _ hsep.2.1,
        fsLookup_write_self]

/-- Witness for the amended C9 saving a named checkpoint on an empty
file system. -/
theorem save_writes_latest_first_witness :
    (∃ rest, (save_checkpoint paths0 [] m0 o0 (some "wave_step5K")).trace =
      .write paths0.voc_latest_weights ::
        .write paths0.voc_latest_optim :: rest) ∧
    fsExists (save_checkpoint paths0 [] m0 o0 (some "wave_step5K")).fs
      paths0.voc_latest_weights = true ∧
    fsExists (save_checkpoint paths0 [] m0 o0 (some "wave_step5K")).fs
      paths0.voc_latest_optim = true ∧
    (∀ nm, (some "wave_step5K" : Option String) = some nm → nm ≠ "" →
      latestDistinct paths0 → namedSeparate paths0 nm →
      numExist [] (namedWeightsPath paths0 nm) (namedOptimPath paths0 nm) = 0 →
      restore_checkpoint paths0 [] m0 o0 (some nm) true =
        save_checkpoint paths0 [] m0 o0 (some nm) ∧
      fsLookup (restore_checkpoint paths0 [] m0 o0 (some nm) true).fs
        paths0.voc_latest_weights = some (.weightsFile m0) ∧
      fsLookup (restore_checkpoint paths0 [] m0 o0 (some nm) true).fs
        paths0.voc_latest_optim = some (.optimFile o0)) :=
  save_writes_latest_first paths0 [] m0 o0 (some "wave_step5K") (by decide)

/-- C10: saving a named checkpoint while the latest pair is consistent
but the named pair has exactly one artifact raises the
corrupted-checkpoint error only after the latest artifacts have already
been overwritten with the in-memory state: the trace holds exactly the
two latest writes and the call still fails. -/
theorem save_named_error_after_latest_overwrite (paths : Paths) (fs : FS)
    (m : ModelState) (o : OptimState) (nm : String) (hnm : nm ≠ "")
    (hld : latestDistinct paths) (hsep : namedSeparate paths nm)
    (hL : numExist fs paths.voc_latest_weights paths.voc_latest_optim ≠ 1)
    (hN : numExist fs (namedWeightsPath paths nm) (namedOptimPath paths nm)
      = 1) :
    isCorrupted (save_checkpoint paths fs m o (some nm)).error = true ∧
    fsLookup (save_checkpoint paths fs m o (some nm)).fs
      paths.voc_latest_weights = some (.weightsFile m) ∧
    fsLookup (save_checkpoint paths fs m o (some nm)).fs
      paths.voc_latest_optim = some (.optimFile o) ∧
    (save_checkpoint paths fs m o (some nm)).trace =
      [.write paths.voc_latest_weights, .write paths.voc_latest_optim] := by
  rw [save_checkpoint_named_eq paths fs m o nm hnm hL]
  have hpres := named_lookup_after_latest_writes paths fs m o nm hsep
  have hn1 : numExist
      (fsWrite (fsWrite fs paths.voc_latest_weights (.weightsFile m))
        paths.voc_latest_optim (.optimFile o))
      (namedWeightsPath paths nm) (namedOptimPath paths nm) = 1 := by
    rw [numExist_congr _ fs _ _ hpres.1 hpres.2]; exact hN
  simp only [saveHelper_corrupt _ m o _ _ _ hn1]
  refine ⟨rfl, ?_, ?_, by simp⟩
  · rw [fsLookup_write_ne _ _ _ _ (Ne.symm hld), fsLookup_write_self]
  · rw [fsLookup_write_self]

/-- Witness for C10 on a file system whose latest pair is complete and
whose named pair wave_step5K has only the weights artifact. -/
theorem save_named_error_after_latest_overwrite_witness :
    isCorrupted
      (save_checkpoint paths0 fsNamedCorrupt m0 o0 (some "wave_step5K")).error
      = true ∧
    fsLookup (save_checkpoint paths0 fsNamedCorrupt m0 o0
      (some "wave_step5K")).fs paths0.voc_latest_weights =
      some (.weightsFile m0) ∧
    fsLookup (save_checkpoint paths0 fsNamedCorrupt m0 o0
      (some "wave_step5K")).fs paths0.voc_latest_optim =
      some (.optimFile o0) ∧
    (save_checkpoint paths0 fsNamedCorrupt m0 o0 (some "wave_step5K")).trace =
      [.write paths0.voc_latest_weights, .write paths0.voc_latest_optim] :=
  save_named_error_after_latest_overwrite paths0 fsNamedCorrupt m0 o0
    "wave_step5K" (by decide) (by decide) (by decide) (by decide) (by decide)

end TrainWaveRNN
